import Mathlib

/-!
Shallow embedding of src/ros/src/deepdive_calibrate.cc (deepdive calibration
node).  All doubles are modelled as rationals; external library calls
(OpenCV solvePnPRansac, Eigen AngleAxis, std::tan) and the repository
helpers that live in deepdive.hh (outside src/) are abstracted in an
`Ext` record of oracle functions, with spec-modelled behaviour where the
specification pins it down.
-/

namespace Deepdive

/-- One pulse of a deepdive_ros/Light message: sensor index, observed sweep
angle (radians) and pulse duration (seconds). -/
structure Pulse where
  sensor : Nat
  angle : ℚ
  duration : ℚ
deriving DecidableEq

/-- A deepdive_ros/Light message: tracker serial (header.frame_id),
lighthouse serial, sweep axis (0 or 1), and the pulse list. -/
structure Light where
  frame_id : String
  lighthouse : String
  axis : Nat
  pulses : List Pulse
deriving DecidableEq

/-- A geometry_msgs Transform: translation plus quaternion rotation, as
stored in the corrections buffer. -/
structure XF where
  tx : ℚ
  ty : ℚ
  tz : ℚ
  qx : ℚ
  qy : ℚ
  qz : ℚ
  qw : ℚ
deriving DecidableEq

/-- A tracker record (deepdive.hh struct, fields used by this node):
body-to-head extrinsic, flat sensor-position array (index s*6+k), and the
readiness flag. -/
structure Tracker where
  bTh : Fin 6 → ℚ
  sensors : Nat → ℚ
  ready : Bool

/-- A lighthouse record (deepdive.hh struct, fields used by this node):
correction-model parameters, vive-to-lighthouse transform vTl stored as
3 translation + 3 axis-angle components, readiness flag. -/
structure Lighthouse where
  params : List ℚ
  vTl : Fin 6 → ℚ
  ready : Bool

/-- Oracles for external code the node calls but that is not part of
src/: std::tan, the Correct angle model (deepdive.hh), OpenCV
solvePnPRansac composed with Rodrigues and the axis-angle conversion
(returning the 6-component pose, or none on RANSAC failure), the Kabsch
solver (deepdive.hh), and Eigen quaternion to axis-angle conversion
(aaOf returns angle times axis component i, i < 3).
Modelled from the spec: Kabsch signals failure when fewer than 3
correspondences are supplied (spec section 4.2), recorded here as the
field kabsch_degenerate. -/
structure Ext where
  tanFn : ℚ → ℚ
  correctFn : List ℚ → ℚ × ℚ → ℚ × ℚ
  pnpFn : List (ℚ × ℚ × ℚ) → List (ℚ × ℚ) → Option (Fin 6 → ℚ)
  kabschFn : List ((ℚ × ℚ × ℚ) × (ℚ × ℚ × ℚ)) → Option (Fin 6 → ℚ)
  aaOf : ℚ → ℚ → ℚ → ℚ → Nat → ℚ
  kabsch_degenerate : ∀ c, c.length < 3 → kabschFn c = none

/-- The identity transform in the 6-component (translation, axis-angle)
encoding: all six components zero. -/
def zero6 : Fin 6 → ℚ := fun _ => 0

/-- Association-list lookup, the semantics of std::map find. -/
def alookup {α β : Type} [DecidableEq α] : List (α × β) → α → Option β
  | [], _ => none
  | p :: r, k => if p.1 = k then some p.2 else alookup r k

/-- Ordered-map insert-or-assign, the semantics of std::map operator[]
followed by assignment: keys are kept sorted and an existing key's value
is overwritten. -/
def minsert {β : Type} : List (ℚ × β) → ℚ → β → List (ℚ × β)
  | [], k, v => [(k, v)]
  | p :: r, k, v =>
    if k < p.1 then (k, v) :: p :: r
    else if k = p.1 then (k, v) :: r
    else p :: minsert r k v

/-- Sorted insertion of a key into a duplicate-free sorted list: the key
set of a std::map. -/
def tinsert (t : ℚ) : List ℚ → List ℚ
  | [] => [t]
  | t0 :: r => if t < t0 then t :: t0 :: r else if t = t0 then t0 :: r else t0 :: tinsert t r

/-- The global calibration-node state: the four buffers, the world-to-vive
registration wTv_, the recording flag, and the configured parameters
(thresholds/count, thresholds/angle, thresholds/duration, resolution,
correct, offset). -/
structure CalibState where
  trackers : List (String × Tracker)
  lighthouses : List (String × Lighthouse)
  measurements : List (ℚ × Light)
  corrections : List (ℚ × XF)
  wTv : Fin 6 → ℚ
  recording : Bool
  threshCount : Nat
  threshAngle : ℚ
  threshDuration : ℚ
  res : ℚ
  correct : Bool
  offset : Fin 3 → ℚ

/-- Time-bucket quantization, deepdive_calibrate.cc line 137:
ros::Time(round(t.toSec() / res) * res).  Timestamps are nonnegative, so
Lean's round agrees with C's round there. -/
def rbucket (res t : ℚ) : ℚ := ((round (t / res) : ℤ) : ℚ) * res

/-- LightCallback's per-pulse filter, lines 486-490: a pulse is erased
when its angle exceeds thresh_angle_ / 57.2958 or its duration is below
thresh_duration_ / 1e6; keepPulse is true for the survivors. -/
def keepPulse (ta td : ℚ) (p : Pulse) : Bool :=
  !(decide (ta / (572958 / 10000) < p.angle) || decide (p.duration < td / 1000000))

/-- LightCallback, lines 470-496: while recording, with the tracker and
lighthouse known and ready, erase the failing pulses and store the
measurement at the current time unless fewer than thresh_count_ pulses
survive. -/
def lightCallback (now : ℚ) (st : CalibState) (msg : Light) : CalibState :=
  if !st.recording then st
  else
    match alookup st.trackers msg.frame_id, alookup st.lighthouses msg.lighthouse with
    | some trk, some lh =>
      if !trk.ready || !lh.ready then st
      else
        let data := msg.pulses.filter (keepPulse st.threshAngle st.threshDuration)
        if data.length < st.threshCount then st
        else { st with measurements := minsert st.measurements now { msg with pulses := data } }
    | _, _ => st

/-- Modelled from the spec: Mean (deepdive.hh, not under src/) reduces a
bucket's samples to their arithmetic mean and fails exactly when there
are no samples (spec sections 4.4 and 4.3: a sensor is used only when
both azimuth and elevation are available in the bucket). -/
def Mean (l : List ℚ) : Option ℚ :=
  if l = [] then none else some (l.sum / (l.length : ℚ))

/-- Modelled from the spec: the Angle Corrector Correct (deepdive.hh, not
under src/) is the identity when the global toggle is disabled (spec
section 4.1); when enabled it applies the beacon model, abstracted as
Ext.correctFn. -/
def correctAngles (e : Ext) (params : List ℚ) (enabled : Bool) (a : ℚ × ℚ) : ℚ × ℚ :=
  if enabled then e.correctFn params a else a

/-- The bundle built at lines 130-141, viewed as a lookup: the angles
pushed for (tracker ts, lighthouse ls, bucket t, sensor s, axis a), in
measurement order.  A measurement contributes when its frame_id,
lighthouse, quantized time and axis match; each of its pulses for sensor
s contributes its angle. -/
def bundleSamples (res : ℚ) (ms : List (ℚ × Light)) (ts ls : String) (t : ℚ) (s a : Nat) : List ℚ :=
  ((ms.filter fun m =>
      decide (m.2.frame_id = ts) && decide (m.2.lighthouse = ls) &&
      decide (rbucket res m.1 = t) && decide (m.2.axis = a)).map
    fun m => (m.2.pulses.filter fun p => decide (p.sensor = s)).map Pulse.angle).flatten

/-- Number of photosensors per tracker, NUM_SENSORS from deepdive.hh (not
under src/); the exact value is immaterial to the claims. -/
def NUM_SENSORS : Nat := 22

/-- Lines 203-208: the mean azimuth/elevation pair for one sensor, defined
exactly when both axes have samples in the bucket. -/
def sensorAngles (res : ℚ) (ms : List (ℚ × Light)) (ts ls : String) (t : ℚ) (s : Nat) : Option (ℚ × ℚ) :=
  match Mean (bundleSamples res ms ts ls t s 0), Mean (bundleSamples res ms ts ls t s 1) with
  | some a0, some a1 => some (a0, a1)
  | _, _ => none

/-- Line 185: the synthetic principal distance z = w / (2 tan(fov / 2))
with w = 1 and fov = 2.0944. -/
def zPrincipal (e : Ext) : ℚ := 1 / (2 * e.tanFn (20944 / 10000 / 2))

/-- Lines 199-218: the object/image correspondence list for one (tracker,
lighthouse, bucket): for every sensor with both mean angles available,
the sensor's local 3-D position paired with the image-plane point
(z tan(az), z tan(el)) of the corrected angles. -/
def pnpCorresp (e : Ext) (trk : Tracker) (params : List ℚ) (cflag : Bool)
    (res : ℚ) (ms : List (ℚ × Light)) (ts ls : String) (t : ℚ) :
    List ((ℚ × ℚ × ℚ) × (ℚ × ℚ)) :=
  (List.range NUM_SENSORS).filterMap fun s =>
    match sensorAngles res ms ts ls t s with
    | none => none
    | some a =>
      let c := correctAngles e params cflag a
      some ((trk.sensors (s * 6), trk.sensors (s * 6 + 1), trk.sensors (s * 6 + 2)),
            (zPrincipal e * e.tanFn c.1, zPrincipal e * e.tanFn c.2))

/-- Lines 219-245: the pose of tracker ts in lighthouse ls's frame at
bucket t; solved only when strictly more than 6 correspondences exist,
by the RANSAC PnP solver (abstracted as Ext.pnpFn, none on failure). -/
def poseAt (e : Ext) (res : ℚ) (cflag : Bool) (ms : List (ℚ × Light))
    (trk : Tracker) (params : List ℚ) (ts ls : String) (t : ℚ) : Option (Fin 6 → ℚ) :=
  let cs := pnpCorresp e trk params cflag res ms ts ls t
  if 6 < cs.length then e.pnpFn (cs.map Prod.fst) (cs.map Prod.snd) else none

/-- The sorted set of quantized measurement times: the candidate bucket
keys of the pose map (poses exist only at such times). -/
def allBucketTimes (res : ℚ) (ms : List (ℚ × Light)) : List ℚ :=
  ms.foldl (fun acc m => tinsert (rbucket res m.1) acc) []

/-- The first three components of a 6-dof pose: its translation. -/
def pos3 (pv : Fin 6 → ℚ) : ℚ × ℚ × ℚ := (pv 0, pv 1, pv 2)

/-- Lines 266-292: correspondences for a slave lighthouse ln: over every
tracker and bucket time at which both the slave pose and the master
pose exist, the pair of translations (slave frame, master frame). -/
def frameCorresp (e : Ext) (res : ℚ) (cflag : Bool) (ms : List (ℚ × Light))
    (trks : List (String × Tracker)) (mn : String) (mp : List ℚ)
    (ln : String) (lp : List ℚ) : List ((ℚ × ℚ × ℚ) × (ℚ × ℚ × ℚ)) :=
  ((trks.map fun tp =>
      (allBucketTimes res ms).filterMap fun t =>
        match poseAt e res cflag ms tp.2 lp tp.1 ln t,
              poseAt e res cflag ms tp.2 mp tp.1 mn t with
        | some pv, some pm => some (pos3 pv, pos3 pm)
        | _, _ => none)).flatten

/-- Lines 300-314: the vTl written for a slave lighthouse: the Kabsch
solution on its correspondences, or the identity transform when Kabsch
fails (Kabsch modelled from the spec: the caller uses the identity on
failure, spec sections 4.2 and 4.5). -/
def slaveVTl (e : Ext) (res : ℚ) (cflag : Bool) (ms : List (ℚ × Light))
    (trks : List (String × Tracker)) (mn : String) (mp : List ℚ)
    (ln : String) (lp : List ℚ) : Fin 6 → ℚ :=
  match e.kabschFn (frameCorresp e res cflag ms trks mn mp ln lp) with
  | some v => v
  | none => zero6

/-- Lines 261-264, transcribed with the source's index slip: the loop
body is vTl[0] = 0 on every one of its six iterations (the loop index i
is never used), so only component 0 of the master's vTl is zeroed. -/
def maskFirst (v : Fin 6 → ℚ) : Fin 6 → ℚ := fun i => if i = 0 then 0 else v i

/-- Lines 254-316: the lighthouse map after the frame-chain stage: the
first (master) entry gets maskFirst of its previous vTl, every other
entry gets its slaveVTl. -/
def solveLighthouses (e : Ext) (res : ℚ) (cflag : Bool) (ms : List (ℚ × Light))
    (trks : List (String × Tracker)) :
    List (String × Lighthouse) → List (String × Lighthouse)
  | [] => []
  | m :: rest =>
    (m.1, { m.2 with vTl := maskFirst m.2.vTl }) ::
      rest.map fun lp =>
        (lp.1, { lp.2 with vTl := slaveVTl e res cflag ms trks m.1 m.2.params lp.1 lp.2.params })

/-- Lines 146-157: the six numbers stored into cor[t] from one
correction: its translation and the axis-angle form of its quaternion
(Eigen conversion abstracted as Ext.aaOf). -/
def corEntry (e : Ext) (c : XF) : Fin 6 → ℚ := fun i =>
  if i.val = 0 then c.tx
  else if i.val = 1 then c.ty
  else if i.val = 2 then c.tz
  else e.aaOf c.qw c.qx c.qy c.qz (i.val - 3)

/-- Lines 142-159: the bucketed correction map cor: each correction is
inserted at its quantized time, overwriting any earlier correction in
the same bucket. -/
def corMap (e : Ext) (res : ℚ) (cs : List (ℚ × XF)) : List (ℚ × (Fin 6 → ℚ)) :=
  cs.foldl (fun m c => minsert m (rbucket res c.1) (corEntry e c.2)) []

/-- Lines 126, 158-162: the diagnostic average height over all raw
corrections (left at 0 when there are none). -/
def meanHeight (cs : List (ℚ × XF)) : ℚ :=
  if cs = [] then 0 else ((cs.map fun c => c.2.tz).sum) / (cs.length : ℚ)

/-- Lines 331-343: the world-registration accumulator at one correction
bucket: the component sums and the count n of trackers having a pose in
the master (reference) lighthouse frame at that bucket. -/
def worldAccum (e : Ext) (res : ℚ) (cflag : Bool) (ms : List (ℚ × Light))
    (trks : List (String × Tracker)) (mn : String) (mp : List ℚ) (t : ℚ) :
    (ℚ × ℚ × ℚ) × Nat :=
  trks.foldl
    (fun acc tp =>
      match poseAt e res cflag ms tp.2 mp tp.1 mn t with
      | some pv => ((acc.1.1 + pv 0, acc.1.2.1 + pv 1, acc.1.2.2 + pv 2), acc.2 + 1)
      | none => acc)
    ((0, 0, 0), 0)

/-- Lines 330-357: the correspondence contributed by one cor entry: only
when n equals the number of configured trackers, the pair of the mean
tracker position and the correction translation plus the configured
offset. -/
def worldPair (e : Ext) (res : ℚ) (cflag : Bool) (ms : List (ℚ × Light))
    (trks : List (String × Tracker)) (mn : String) (mp : List ℚ)
    (offset : Fin 3 → ℚ) (ct : ℚ × (Fin 6 → ℚ)) :
    Option ((ℚ × ℚ × ℚ) × (ℚ × ℚ × ℚ)) :=
  let a := worldAccum e res cflag ms trks mn mp ct.1
  if a.2 = trks.length then
    some ((a.1.1 / (a.2 : ℚ), a.1.2.1 / (a.2 : ℚ), a.1.2.2 / (a.2 : ℚ)),
          (ct.2 0 + offset 0, ct.2 1 + offset 1, ct.2 2 + offset 2))
  else none

/-- Lines 322-357: all world-registration correspondences, over the
bucketed corrections. -/
def worldCorresp (e : Ext) (res : ℚ) (cflag : Bool) (ms : List (ℚ × Light))
    (cs : List (ℚ × XF)) (trks : List (String × Tracker)) (mn : String)
    (mp : List ℚ) (offset : Fin 3 → ℚ) : List ((ℚ × ℚ × ℚ) × (ℚ × ℚ × ℚ)) :=
  (corMap e res cs).filterMap (worldPair e res cflag ms trks mn mp offset)

/-- Lines 358-379: the world-to-vive registration written by Solve: the
Kabsch solution on the world correspondences, or the identity transform
when Kabsch fails (including the empty-correspondence case; Kabsch
modelled from the spec as in slaveVTl). -/
def worldVTv (e : Ext) (res : ℚ) (cflag : Bool) (ms : List (ℚ × Light))
    (cs : List (ℚ × XF)) (trks : List (String × Tracker)) (mn : String)
    (mp : List ℚ) (offset : Fin 3 → ℚ) : Fin 6 → ℚ :=
  match e.kabschFn (worldCorresp e res cflag ms cs trks mn mp offset) with
  | some v => v
  | none => zero6

/-- Line 257 and 325: the master (reference) lighthouse is the first
entry of the lighthouse map. -/
def masterName (lhs : List (String × Lighthouse)) : String :=
  match lhs with
  | [] => ""
  | l :: _ => l.1

/-- The master lighthouse's correction-model parameters. -/
def masterParams (lhs : List (String × Lighthouse)) : List ℚ :=
  match lhs with
  | [] => []
  | l :: _ => l.2.params

/-- Solve, lines 84-466: fails immediately on an empty measurement
buffer; otherwise writes the frame-chain vTl of every lighthouse and
the world registration wTv_ and succeeds.  All remaining side effects
(logging, publishing, config writing) are outside the state. -/
def solve (e : Ext) (st : CalibState) : Bool × CalibState :=
  if st.measurements = [] then (false, st)
  else
    (true,
     { st with
       lighthouses := solveLighthouses e st.res st.correct st.measurements st.trackers st.lighthouses,
       wTv := worldVTv e st.res st.correct st.measurements st.corrections st.trackers
         (masterName st.lighthouses) (masterParams st.lighthouses) st.offset })

/-- A std_srvs/Trigger response. -/
structure TriggerRes where
  success : Bool
  message : String
deriving DecidableEq

/-- TriggerCallback, lines 498-519.  The two consecutive ifs of the
source are exclusive because recording_ is not modified between them:
while idle the callback only starts recording; while recording it runs
Solve, reports its result, clears the measurement buffer and stops
recording. -/
def triggerCallback (e : Ext) (st : CalibState) : TriggerRes × CalibState :=
  if st.recording then
    let r := solve e st
    (⟨r.1, if r.1 then "Recording stopped. Solution found."
           else "Recording stopped. Solution not found."⟩,
     { r.2 with measurements := [], recording := false })
  else
    (⟨true, "Recording started."⟩, { st with recording := true })

/-- A trivial tracker used in the concrete evaluations. -/
def trk0 : Tracker := ⟨fun _ => 0, fun _ => 0, true⟩

/-- A trivial lighthouse used in the concrete evaluations. -/
def lh0 : Lighthouse := ⟨[], fun _ => 0, true⟩

/-- A concrete oracle bundle on which every solver call fails (Kabsch and
PnP both return none); tan is the constant 1 and the angle model is the
identity. -/
def ext0 : Ext :=
  ⟨fun _ => 1, fun _ a => a, fun _ _ => none, fun _ => none, fun _ _ _ _ _ => 0,
   fun _ _ => rfl⟩

/-- A concrete oracle bundle whose PnP solver always succeeds with the
constant pose (1, 1, 1, 1, 1, 1). -/
def extW : Ext :=
  ⟨fun _ => 1, fun _ a => a, fun _ _ => some fun _ => 1, fun _ => none,
   fun _ _ _ _ _ => 0, fun _ _ => rfl⟩

/-- A small configured state: one ready tracker T1, one ready lighthouse
L1, empty buffers, thresholds 4 pulses / 60 degrees / 1 microsecond,
resolution 1 second, offset (10, 10, 10). -/
def stIdle : CalibState :=
  { trackers := [("T1", trk0)]
    lighthouses := [("L1", lh0)]
    measurements := []
    corrections := []
    wTv := zero6
    recording := false
    threshCount := 4
    threshAngle := 60
    threshDuration := 1
    res := 1
    correct := false
    offset := fun _ => 10 }

/-- The same state while recording. -/
def stRec : CalibState := { stIdle with recording := true }

/-- A lighthouse whose configured initial transform guess is visibly not
the identity: vTl = (5, 7, 0, 0, 0, 0). -/
def lhC1 : Lighthouse := ⟨[], fun i => if i = 0 then 5 else if i = 1 then 7 else 0, true⟩

/-- A pulse-free light message from T1 on L1. -/
def mLight : Light := ⟨"T1", "L1", 0, []⟩

/-- A recording state with a nonempty measurement buffer and the
non-identity initial guess for the (single, hence master) lighthouse. -/
def stC1 : CalibState :=
  { stRec with lighthouses := [("L1", lhC1)], measurements := [(0, mLight)] }

/-- A pulse exactly at the angle threshold (60 degrees in radians) and
exactly at the duration threshold (1 microsecond in seconds). -/
def pulseBoundary : Pulse := ⟨0, 60 / (572958 / 10000), 1 / 1000000⟩

/-- A pulse just over the angle threshold: 60.01 degrees in radians. -/
def pulseOver : Pulse := ⟨1, (6001 / 100) / (572958 / 10000), 1 / 1000000⟩

/-- Three unremarkable pulses. -/
def pulsesOk : List Pulse := [⟨2, 0, 1⟩, ⟨3, 0, 1⟩, ⟨4, 0, 1⟩]

/-- A light message whose five pulses leave exactly 4 survivors (the
boundary pulse survives, the over-threshold pulse is erased). -/
def msgC5 : Light := ⟨"T1", "L1", 0, pulseBoundary :: pulseOver :: pulsesOk⟩

/-- The same message missing one good pulse: only 3 survivors. -/
def msgC5short : Light := ⟨"T1", "L1", 0, [pulseBoundary, pulseOver, ⟨2, 0, 1⟩, ⟨3, 0, 1⟩]⟩

/-- Seven pulses on sensors 0..6, angle 1, duration 1. -/
def pulses7 : List Pulse := (List.range 7).map fun s => ⟨s, 1, 1⟩

/-- Measurements giving tracker T1 seven sensors with both axes sampled
in bucket 0 of lighthouse L1 (resolution 1). -/
def msW : List (ℚ × Light) :=
  [(0, ⟨"T1", "L1", 0, pulses7⟩), (1 / 100, ⟨"T1", "L1", 1, pulses7⟩)]

/-- The tracker map with the single tracker T1. -/
def trksW : List (String × Tracker) := [("T1", trk0)]

/-- Two corrections falling into the same time bucket 0 at resolution 1:
heights 5 and 7, distinct translations. -/
def xfA : XF := ⟨1, 2, 5, 0, 0, 0, 1⟩

/-- The later correction of the bucket. -/
def xfB : XF := ⟨3, 4, 7, 0, 0, 0, 1⟩

/-- The correction buffer for the bucket-overwrite evaluation. -/
def csC10 : List (ℚ × XF) := [(0, xfA), (1 / 100, xfB)]

/-! Helper lemmas. -/

theorem maskFirst_idem (v : Fin 6 → ℚ) : maskFirst (maskFirst v) = maskFirst v := by
  funext i
  by_cases h : i = 0 <;> simp [maskFirst, h]

theorem alookup_minsert {β : Type} (m : List (ℚ × β)) (k k' : ℚ) (v : β) :
    alookup (minsert m k v) k' = if k = k' then some v else alookup m k' := by
  induction m with
  | nil => simp [minsert, alookup]
  | cons p r ih =>
    rcases lt_trichotomy k p.1 with h | h | h
    · have e1 : minsert (p :: r) k v = (k, v) :: p :: r := by
        unfold minsert
        rw [if_pos h]
      rw [e1]
      simp [alookup]
    · have h1 : ¬ k < p.1 := by rw [h]; exact lt_irrefl _
      have e1 : minsert (p :: r) k v = (k, v) :: r := by
        unfold minsert
        rw [if_neg h1, if_pos h]
      rw [e1]
      by_cases h3 : k = k'
      · simp [alookup, h3]
      · have h4 : ¬ p.1 = k' := fun hp => h3 (h.trans hp)
        simp [alookup, h3, h4]
    · have h1 : ¬ k < p.1 := not_lt.mpr (le_of_lt h)
      have h2 : ¬ k = p.1 := fun he => lt_irrefl k (he ▸ h)
      have e1 : minsert (p :: r) k v = p :: minsert r k v := by
        simp [minsert, h1, h2]
      rw [e1]
      by_cases h3 : k = k'
      · subst h3
        have h4 : ¬ p.1 = k := fun hp => h2 hp.symm
        simp [alookup, h4, ih]
      · by_cases h4 : p.1 = k' <;> simp [alookup, h4, h3, ih]

theorem getLast?_cons_eq {α : Type} (a : α) (l : List α) :
    (a :: l).getLast? = some (l.getLast?.getD a) := by
  induction l generalizing a with
  | nil => rfl
  | cons b l ih =>
    rw [List.getLast?_cons_cons, ih b]
    rfl

theorem getLast?_eq_none_iff {α : Type} (l : List α) : l.getLast? = none ↔ l = [] := by
  cases l with
  | nil => simp
  | cons a l => simp [getLast?_cons_eq]

theorem alookup_foldl_minsert {β : Type} (key : ℚ × XF → ℚ) (val : ℚ × XF → β)
    (cs : List (ℚ × XF)) (m0 : List (ℚ × β)) (τ : ℚ) :
    alookup (cs.foldl (fun m c => minsert m (key c) (val c)) m0) τ =
      match (cs.filter fun c => decide (key c = τ)).getLast? with
      | some c => some (val c)
      | none => alookup m0 τ := by
  induction cs generalizing m0 with
  | nil => simp
  | cons c cs ih =>
    rw [List.foldl_cons, ih]
    by_cases hl : (cs.filter fun c => decide (key c = τ)) = []
    · by_cases hc : key c = τ
      · simp [List.filter_cons, hc, hl, getLast?_cons_eq, alookup_minsert]
      · simp [List.filter_cons, hc, hl, alookup_minsert, fun h => hc h]
    · rcases hlast : (cs.filter fun c => decide (key c = τ)).getLast? with _ | c'
      · exact absurd ((getLast?_eq_none_iff _).mp hlast) hl
      · by_cases hc : key c = τ
        · simp [List.filter_cons, hc, getLast?_cons_eq, hlast]
        · simp [List.filter_cons, hc, hlast]

theorem Mean_eq_none_iff (l : List ℚ) : Mean l = none ↔ l = [] := by
  by_cases h : l = [] <;> simp [Mean, h]

theorem sensorAngles_isSome_eq (res : ℚ) (ms : List (ℚ × Light)) (ts ls : String)
    (t : ℚ) (s : Nat) :
    (sensorAngles res ms ts ls t s).isSome =
      (!(decide (bundleSamples res ms ts ls t s 0 = [])) &&
       !(decide (bundleSamples res ms ts ls t s 1 = []))) := by
  rcases h0 : Mean (bundleSamples res ms ts ls t s 0) with _ | a0 <;>
    rcases h1 : Mean (bundleSamples res ms ts ls t s 1) with _ | a1 <;>
      simp [sensorAngles, h0, h1] <;>
        simp [Mean] at h0 h1 <;>
          simp_all [Mean_eq_none_iff]

theorem length_filterMap_eq_length_filter {α β : Type} (f : α → Option β) (p : α → Bool)
    (h : ∀ a, (f a).isSome = p a) (l : List α) :
    (l.filterMap f).length = (l.filter p).length := by
  induction l with
  | nil => rfl
  | cons a l ih =>
    have ha := h a
    rcases hfa : f a with _ | b <;> rw [hfa] at ha <;>
      simp [List.filterMap_cons, List.filter_cons, hfa, ← ha, ih]

theorem length_filterMap_eq_iff {α β : Type} (f : α → Option β) (l : List α) :
    (l.filterMap f).length = l.length ↔ ∀ a ∈ l, (f a).isSome := by
  induction l with
  | nil => simp
  | cons a l ih =>
    rcases hfa : f a with _ | b
    · have hle := List.length_filterMap_le f l
      simp only [List.filterMap_cons, hfa]
      constructor
      · intro h
        rw [List.length_cons] at h
        exact absurd h (by omega)
      · intro h
        have := h a (by simp)
        simp [hfa] at this
    · simp [List.filterMap_cons, hfa, ih]

theorem foldl_accum {α : Type} (f : α → Option (Fin 6 → ℚ)) (l : List α)
    (x y z : ℚ) (n : Nat) :
    l.foldl
      (fun acc tp =>
        match f tp with
        | some pv => ((acc.1.1 + pv 0, acc.1.2.1 + pv 1, acc.1.2.2 + pv 2), acc.2 + 1)
        | none => acc)
      ((x, y, z), n) =
    ((x + ((l.filterMap f).map fun pv => pv 0).sum,
      y + ((l.filterMap f).map fun pv => pv 1).sum,
      z + ((l.filterMap f).map fun pv => pv 2).sum),
     n + (l.filterMap f).length) := by
  induction l generalizing x y z n with
  | nil => simp
  | cons a l ih =>
    rcases hfa : f a with _ | pv
    · simp only [List.foldl_cons, hfa, List.filterMap_cons]
      exact ih x y z n
    · simp only [List.foldl_cons, hfa, List.filterMap_cons, List.map_cons, List.sum_cons,
        List.length_cons]
      rw [ih]
      refine congrArg₂ Prod.mk (congrArg₂ Prod.mk ?_ (congrArg₂ Prod.mk ?_ ?_)) ?_ <;> ring_nf

theorem worldAccum_spec (e : Ext) (res : ℚ) (cflag : Bool) (ms : List (ℚ × Light))
    (trks : List (String × Tracker)) (mn : String) (mp : List ℚ) (t : ℚ) :
    worldAccum e res cflag ms trks mn mp t =
      ((((trks.filterMap fun tp => poseAt e res cflag ms tp.2 mp tp.1 mn t).map fun pv => pv 0).sum,
        ((trks.filterMap fun tp => poseAt e res cflag ms tp.2 mp tp.1 mn t).map fun pv => pv 1).sum,
        ((trks.filterMap fun tp => poseAt e res cflag ms tp.2 mp tp.1 mn t).map fun pv => pv 2).sum),
       (trks.filterMap fun tp => poseAt e res cflag ms tp.2 mp tp.1 mn t).length) := by
  have h := foldl_accum (fun tp => poseAt e res cflag ms tp.2 mp tp.1 mn t) trks 0 0 0 0
  simpa [worldAccum] using h

theorem masterName_solveLighthouses (e : Ext) (res : ℚ) (cflag : Bool)
    (ms : List (ℚ × Light)) (trks : List (String × Tracker)) (lhs : List (String × Lighthouse)) :
    masterName (solveLighthouses e res cflag ms trks lhs) = masterName lhs := by
  cases lhs <;> rfl

theorem masterParams_solveLighthouses (e : Ext) (res : ℚ) (cflag : Bool)
    (ms : List (ℚ × Light)) (trks : List (String × Tracker)) (lhs : List (String × Lighthouse)) :
    masterParams (solveLighthouses e res cflag ms trks lhs) = masterParams lhs := by
  cases lhs <;> rfl

theorem solveLighthouses_idem (e : Ext) (res : ℚ) (cflag : Bool)
    (ms : List (ℚ × Light)) (trks : List (String × Tracker)) (lhs : List (String × Lighthouse)) :
    solveLighthouses e res cflag ms trks (solveLighthouses e res cflag ms trks lhs) =
      solveLighthouses e res cflag ms trks lhs := by
  cases lhs with
  | nil => rfl
  | cons m rest =>
    simp only [solveLighthouses, List.map_map, maskFirst_idem]
    refine congrArg₂ List.cons rfl ?_
    exact congrArg (fun h => List.map h rest) (funext fun lp => rfl)

/-! Claim theorems. -/

/-- C1: the claim says that after every run of Solve the reference
(first) beacon's vTl is the identity, all six components zero,
regardless of the configured initial guess.  The code is wrong: the
zeroing loop at lines 262-263 writes vTl[0] on every iteration (the
loop index is unused), so only component 0 is cleared.  Evaluating the
embedded Solve on a state whose single (hence master) lighthouse starts
at vTl = (5, 7, 0, 0, 0, 0) leaves component 1 equal to 7, not 0. -/
theorem C1_master_not_identity :
    ((solve ext0 stC1).2.lighthouses.map fun lp => (lp.1, lp.2.vTl 0, lp.2.vTl 1)) =
      [("L1", 0, 7)] ∧ (7 : ℚ) ≠ 0 := by
  constructor
  · rfl
  · decide

/-- C2: whenever a Kabsch invocation fails, the caller stores the
identity transform: a slave lighthouse's vTl becomes the identity on
frame-chain alignment failure, and wTv_ becomes the identity on
world-registration failure, including the degenerate fewer-than-3 and
empty-correspondence cases (Kabsch itself lives in deepdive.hh and is
modelled from the spec: failure exactly reported, identity substituted
by the caller). -/
theorem C2_identity_on_failure (e : Ext) (res : ℚ) (cflag : Bool)
    (ms : List (ℚ × Light)) (cs : List (ℚ × XF)) (trks : List (String × Tracker))
    (mn : String) (mp : List ℚ) (ln : String) (lp : List ℚ) (offset : Fin 3 → ℚ) :
    (∀ c, c.length < 3 → e.kabschFn c = none) ∧
    (e.kabschFn (frameCorresp e res cflag ms trks mn mp ln lp) = none →
      slaveVTl e res cflag ms trks mn mp ln lp = zero6) ∧
    (e.kabschFn (worldCorresp e res cflag ms cs trks mn mp offset) = none →
      worldVTv e res cflag ms cs trks mn mp offset = zero6) ∧
    (worldCorresp e res cflag ms cs trks mn mp offset = [] →
      worldVTv e res cflag ms cs trks mn mp offset = zero6) := by
  refine ⟨e.kabsch_degenerate, fun h => ?_, fun h => ?_, fun h => ?_⟩
  · simp [slaveVTl, h]
  · simp [worldVTv, h]
  · have hn : e.kabschFn (worldCorresp e res cflag ms cs trks mn mp offset) = none := by
      refine e.kabsch_degenerate _ ?_
      rw [h]
      decide
    simp [worldVTv, hn]

/-- C2 witness: on concrete inputs where Kabsch fails, the stored slave
vTl and stored wTv_ are the identity transform. -/
theorem C2_witness :
    ext0.kabschFn (frameCorresp ext0 1 false [] [] "L1" [] "L2" []) = none ∧
    slaveVTl ext0 1 false [] [] "L1" [] "L2" [] = zero6 ∧
    worldVTv ext0 1 false [] [] [] "L1" [] (fun _ => 0) = zero6 :=
  ⟨rfl,
   (C2_identity_on_failure ext0 1 false [] [] [] "L1" [] "L2" [] (fun _ => 0)).2.1 rfl,
   (C2_identity_on_failure ext0 1 false [] [] [] "L1" [] "L2" [] (fun _ => 0)).2.2.2 rfl⟩

/-- C3: with an empty measurement buffer, Solve fails before computing
anything (it returns false and the state unchanged), the stop trigger
reports failure with the not-found message, and neither the lighthouses'
vTl nor wTv_ is modified. -/
theorem C3_empty_measurements (e : Ext) (st : CalibState)
    (hrec : st.recording = true) (hm : st.measurements = []) :
    solve e st = (false, st) ∧
    (triggerCallback e st).1.success = false ∧
    (triggerCallback e st).1.message = "Recording stopped. Solution not found." ∧
    (triggerCallback e st).2.lighthouses = st.lighthouses ∧
    (triggerCallback e st).2.wTv = st.wTv := by
  have hs : solve e st = (false, st) := by simp [solve, hm]
  refine ⟨hs, ?_, ?_, ?_, ?_⟩ <;> simp [triggerCallback, hrec, hs]

/-- C3 witness: the recording state with empty buffers. -/
theorem C3_witness :
    solve ext0 stRec = (false, stRec) ∧
    (triggerCallback ext0 stRec).1.success = false ∧
    (triggerCallback ext0 stRec).2.wTv = stRec.wTv :=
  ⟨(C3_empty_measurements ext0 stRec rfl rfl).1,
   (C3_empty_measurements ext0 stRec rfl rfl).2.1,
   (C3_empty_measurements ext0 stRec rfl rfl).2.2.2.2⟩

/-- C4: the trigger is a two-state machine.  While idle it does not
invoke Solve at all: the whole result is the started response and the
same state with only the recording flag set.  While recording it
reports exactly Solve's success flag and the post-Solve state with the
measurement buffer cleared and recording off. -/
theorem C4_two_state (e : Ext) (st : CalibState) :
    (st.recording = false →
      triggerCallback e st = (⟨true, "Recording started."⟩, { st with recording := true })) ∧
    (st.recording = true →
      (triggerCallback e st).1.success = (solve e st).1 ∧
      (triggerCallback e st).2 =
        { (solve e st).2 with measurements := [], recording := false }) := by
  constructor
  · intro h
    simp [triggerCallback, h]
  · intro h
    simp [triggerCallback, h]

/-- C4 witness: one idle trigger and one recording trigger. -/
theorem C4_witness :
    triggerCallback ext0 stIdle =
      (⟨true, "Recording started."⟩, { stIdle with recording := true }) ∧
    (triggerCallback ext0 stRec).1.success = (solve ext0 stRec).1 :=
  ⟨(C4_two_state ext0 stIdle).1 rfl, ((C4_two_state ext0 stRec).2 rfl).1⟩

/-- C5: while recording with a known, ready tracker and lighthouse, a
pulse survives iff its angle is at most the threshold (60 degrees
converted via 57.2958) and its duration at least the minimum; the
measurement is stored iff at least thresh_count_ pulses survive, and is
dropped entirely otherwise. -/
theorem C5_pulse_filter (now : ℚ) (st : CalibState) (msg : Light)
    (trk : Tracker) (lh : Lighthouse)
    (hrec : st.recording = true)
    (htrk : alookup st.trackers msg.frame_id = some trk)
    (hlh : alookup st.lighthouses msg.lighthouse = some lh)
    (htr : trk.ready = true) (hlr : lh.ready = true) :
    (∀ p : Pulse, keepPulse st.threshAngle st.threshDuration p = true ↔
      (p.angle ≤ st.threshAngle / (572958 / 10000) ∧
       st.threshDuration / 1000000 ≤ p.duration)) ∧
    (st.threshCount ≤ (msg.pulses.filter (keepPulse st.threshAngle st.threshDuration)).length →
      alookup (lightCallback now st msg).measurements now =
        some { msg with pulses := msg.pulses.filter (keepPulse st.threshAngle st.threshDuration) }) ∧
    ((msg.pulses.filter (keepPulse st.threshAngle st.threshDuration)).length < st.threshCount →
      lightCallback now st msg = st) := by
  refine ⟨fun p => ?_, fun h => ?_, fun h => ?_⟩
  · simp [keepPulse, not_or, not_lt, and_comm]
  · simp [lightCallback, hrec, htrk, hlh, htr, hlr, Nat.not_lt.mpr h, alookup_minsert]
  · simp [lightCallback, hrec, htrk, hlh, htr, hlr, h]

/-- C5 witness: with threshold 60 degrees (stRec's configuration), the
pulse at exactly 60.0/57.2958 radians survives and 60.01/57.2958 is
rejected; a message with exactly 4 survivors is stored, one with 3
survivors is dropped. -/
theorem C5_witness :
    keepPulse stRec.threshAngle stRec.threshDuration pulseBoundary = true ∧
    keepPulse stRec.threshAngle stRec.threshDuration pulseOver = false ∧
    alookup (lightCallback 5 stRec msgC5).measurements 5 =
      some { msgC5 with
             pulses := msgC5.pulses.filter (keepPulse stRec.threshAngle stRec.threshDuration) } ∧
    lightCallback 5 stRec msgC5short = stRec := by
  have h := C5_pulse_filter 5 stRec msgC5 trk0 lh0 rfl rfl rfl rfl rfl
  have h2 := C5_pulse_filter 5 stRec msgC5short trk0 lh0 rfl rfl rfl rfl rfl
  have hkB : keepPulse stRec.threshAngle stRec.threshDuration pulseBoundary = true :=
    (h.1 pulseBoundary).mpr (by norm_num [pulseBoundary, stRec, stIdle])
  have hkO : keepPulse stRec.threshAngle stRec.threshDuration pulseOver = false := by
    rcases hb : keepPulse stRec.threshAngle stRec.threshDuration pulseOver with _ | _
    · rfl
    · have hc := (h.1 pulseOver).mp hb
      norm_num [pulseOver, stRec, stIdle] at hc
  have hk : ∀ s : Nat, keepPulse stRec.threshAngle stRec.threshDuration ⟨s, 0, 1⟩ = true :=
    fun s => (h.1 ⟨s, 0, 1⟩).mpr (by norm_num [stRec, stIdle])
  have hfil : msgC5.pulses.filter (keepPulse stRec.threshAngle stRec.threshDuration) =
      pulseBoundary :: pulsesOk := by
    simp [msgC5, pulsesOk, List.filter_cons, hkB, hkO, hk]
  have hfil2 : msgC5short.pulses.filter (keepPulse stRec.threshAngle stRec.threshDuration) =
      [pulseBoundary, ⟨2, 0, 1⟩, ⟨3, 0, 1⟩] := by
    simp [msgC5short, List.filter_cons, hkB, hkO, hk]
  have hlen : stRec.threshCount ≤
      (msgC5.pulses.filter (keepPulse stRec.threshAngle stRec.threshDuration)).length := by
    rw [hfil]
    norm_num [pulsesOk, stRec, stIdle]
  have hlen2 : (msgC5short.pulses.filter (keepPulse stRec.threshAngle stRec.threshDuration)).length <
      stRec.threshCount := by
    rw [hfil2]
    norm_num [stRec, stIdle]
  exact ⟨hkB, hkO, h.2.1 hlen, h2.2.2 hlen2⟩

/-- C6: for every (tracker, lighthouse, bucket) triple, the pose map gets
an entry exactly when strictly more than 6 sensors have samples on both
axes in the bucket AND the RANSAC solver succeeds; with 6 or fewer
valid sensors the instant is skipped outright (the solver is not even
consulted), and on solver failure no estimate is recorded. -/
theorem C6_pose_gate (e : Ext) (res : ℚ) (cflag : Bool) (ms : List (ℚ × Light))
    (trk : Tracker) (params : List ℚ) (ts ls : String) (t : ℚ) :
    poseAt e res cflag ms trk params ts ls t =
      if 6 < ((List.range NUM_SENSORS).filter fun s =>
          !(decide (bundleSamples res ms ts ls t s 0 = [])) &&
          !(decide (bundleSamples res ms ts ls t s 1 = []))).length then
        e.pnpFn ((pnpCorresp e trk params cflag res ms ts ls t).map Prod.fst)
          ((pnpCorresp e trk params cflag res ms ts ls t).map Prod.snd)
      else none := by
  have hlen : (pnpCorresp e trk params cflag res ms ts ls t).length =
      ((List.range NUM_SENSORS).filter fun s =>
        !(decide (bundleSamples res ms ts ls t s 0 = [])) &&
        !(decide (bundleSamples res ms ts ls t s 1 = []))).length := by
    refine length_filterMap_eq_length_filter _ _ (fun s => ?_) _
    rw [← sensorAngles_isSome_eq]
    rcases hs : sensorAngles res ms ts ls t s with _ | a <;> simp [hs]
  simp only [poseAt]
  rw [hlen]

/-- C7: for a correction bucket, a world-registration correspondence is
formed iff every configured tracker has a reference-frame pose at that
bucket; in that case the source point is the arithmetic mean of all the
trackers' reference-frame positions and the target point is the
correction translation plus the configured offset.  (The iff and values
are stated for a nonempty tracker map; with no trackers the C++ would
divide 0.0 by zero.) -/
theorem C7_world_pairing (e : Ext) (res : ℚ) (cflag : Bool) (ms : List (ℚ × Light))
    (trks : List (String × Tracker)) (mn : String) (mp : List ℚ)
    (offset : Fin 3 → ℚ) (t : ℚ) (v : Fin 6 → ℚ) (_hne : trks ≠ []) :
    ((worldPair e res cflag ms trks mn mp offset (t, v)).isSome ↔
      ∀ tp ∈ trks, (poseAt e res cflag ms tp.2 mp tp.1 mn t).isSome) ∧
    ((∀ tp ∈ trks, (poseAt e res cflag ms tp.2 mp tp.1 mn t).isSome) →
      worldPair e res cflag ms trks mn mp offset (t, v) =
        some
          ((((trks.filterMap fun tp => poseAt e res cflag ms tp.2 mp tp.1 mn t).map
                fun pv => pv 0).sum / (trks.length : ℚ),
            ((trks.filterMap fun tp => poseAt e res cflag ms tp.2 mp tp.1 mn t).map
                fun pv => pv 1).sum / (trks.length : ℚ),
            ((trks.filterMap fun tp => poseAt e res cflag ms tp.2 mp tp.1 mn t).map
                fun pv => pv 2).sum / (trks.length : ℚ)),
           (v 0 + offset 0, v 1 + offset 1, v 2 + offset 2))) := by
  have hacc := worldAccum_spec e res cflag ms trks mn mp t
  constructor
  · simp only [worldPair, hacc]
    rw [← length_filterMap_eq_iff]
    by_cases hl : (trks.filterMap fun tp => poseAt e res cflag ms tp.2 mp tp.1 mn t).length =
        trks.length <;> simp [hl]
  · intro h
    have hl : (trks.filterMap fun tp => poseAt e res cflag ms tp.2 mp tp.1 mn t).length =
        trks.length := (length_filterMap_eq_iff _ _).mpr h
    simp only [worldPair, hacc, hl]
    simp

/-- C7 witness: one ready tracker with seven dual-axis sensors in bucket
0, so the pairing iff is exercised on a nonempty tracker map. -/
theorem C7_witness :
    trksW ≠ [] ∧
    ((worldPair extW 1 false msW trksW "L1" [] (fun _ => 10) (0, fun _ => 2)).isSome ↔
      ∀ tp ∈ trksW, (poseAt extW 1 false msW tp.2 [] tp.1 "L1" 0).isSome) :=
  ⟨List.cons_ne_nil _ _,
   (C7_world_pairing extW 1 false msW trksW "L1" [] (fun _ => 10) 0 (fun _ => 2)
     (List.cons_ne_nil _ _)).1⟩

/-- C8: the stop trigger clears only the measurement buffer: the
correction buffer survives the trigger handler unchanged (and Solve
itself touches neither buffer), so corrections accumulate across
recording sessions while measurements do not. -/
theorem C8_corrections_persist (e : Ext) (st : CalibState) :
    (triggerCallback e st).2.corrections = st.corrections ∧
    (solve e st).2.corrections = st.corrections ∧
    (solve e st).2.measurements = st.measurements ∧
    (st.recording = true → (triggerCallback e st).2.measurements = []) := by
  have hs : (solve e st).2.corrections = st.corrections ∧
      (solve e st).2.measurements = st.measurements := by
    by_cases hm : st.measurements = [] <;> simp [solve, hm]
  refine ⟨?_, hs.1, hs.2, fun h => ?_⟩
  · by_cases hr : st.recording <;> simp [triggerCallback, hr, hs.1]
  · simp [triggerCallback, h]

/-- C8 witness: a recording stop leaves the correction buffer untouched
and empties the measurement buffer. -/
theorem C8_witness :
    (triggerCallback ext0 stRec).2.corrections = stRec.corrections ∧
    (triggerCallback ext0 stRec).2.measurements = [] :=
  ⟨(C8_corrections_persist ext0 stRec).1, (C8_corrections_persist ext0 stRec).2.2.2 rfl⟩

/-- C9: Solve is idempotent on its buffers: running the pipeline a
second time on the state produced by the first run (identical
measurement and correction buffers, no ingestion in between) returns
the identical response and the identical state, in particular the same
vTl for every lighthouse and the same wTv_. -/
theorem C9_idempotent (e : Ext) (st : CalibState) :
    solve e ((solve e st).2) = solve e st := by
  by_cases hm : st.measurements = []
  · simp [solve, hm]
  · simp [solve, hm, solveLighthouses_idem, masterName_solveLighthouses,
      masterParams_solveLighthouses]

/-- C10: corrections sharing a time bucket overwrite one another: the
stored per-bucket entry is that of the last correction processed in the
bucket (no averaging), while the diagnostic mean height averages over
all raw corrections. -/
theorem C10_last_correction_wins (e : Ext) (res : ℚ) (cs : List (ℚ × XF)) (τ : ℚ) :
    alookup (corMap e res cs) τ =
      ((cs.filter fun c => decide (rbucket res c.1 = τ)).getLast?).map
        (fun c => corEntry e c.2) ∧
    (cs ≠ [] → meanHeight cs = ((cs.map fun c => c.2.tz).sum) / (cs.length : ℚ)) := by
  constructor
  · have h := alookup_foldl_minsert (fun c => rbucket res c.1) (fun c => corEntry e c.2) cs [] τ
    simp only [corMap]
    rw [h]
    rcases hl : (cs.filter fun c => decide (rbucket res c.1 = τ)).getLast? with _ | c <;>
      rw [hl] <;> rfl
  · intro h
    simp [meanHeight, h]

/-- C10 witness: two corrections in bucket 0 (times 0 and 1/100 at
resolution 1): the stored entry is that of the later correction xfB,
and the mean height averages both raw corrections: (5 + 7) / 2 = 6. -/
theorem C10_witness :
    alookup (corMap ext0 1 csC10) 0 = some (corEntry ext0 xfB) ∧
    meanHeight csC10 = 6 := by
  have h := C10_last_correction_wins ext0 1 csC10 0
  have hr0 : rbucket 1 (0 : ℚ) = 0 := by
    norm_num [rbucket]
  have hr1 : rbucket 1 ((100 : ℚ)⁻¹) = 0 := by
    unfold rbucket
    rw [show ((100 : ℚ)⁻¹) / 1 = 100⁻¹ by norm_num, round_eq]
    norm_num
  constructor
  · rw [h.1]
    simp [csC10, List.filter_cons, hr0, hr1, getLast?_cons_eq]
  · refine (h.2 (by simp [csC10])).trans ?_
    norm_num [csC10, xfA, xfB]

end Deepdive
